import Mathlib

/-!
Verification development for `ginga/util/wcsmod.py`.

The module provides WCS (world coordinate system) transforms behind a
backend registry.  We shallowly embed the parts under scrutiny:

* Python string primitives (`strip`, `upper`, `lower`, anchored `re.match`
  with patterns of the shape `^PRE.*$`) over Lean `String`;
* FITS-header metadata as association lists (first binding wins; callers
  construct them from Python dicts, so keys are distinct), with values
  `HVal` being floats (modelled as `ℚ`), strings, or booleans;
* the module-level classifier `choose_coord_system` and the variant method
  `AstLibWCS.choose_coord_system`, both returning `Except` to model
  uncaught Python exceptions (an `AttributeError` when `.strip()` is
  invoked on a non-string value; `KeyError` is caught by the source);
* the fallback engine `BareBonesWCS` transform math over numeric-valued
  headers (`NumHeader`); `float()` applied to a numeric header value is
  the identity, and the transcendental `math.cos(math.radians(·))` is an
  explicit function parameter `cosdeg` so that the development stays
  executable — theorems assume only what the claims assume about it
  (nonzero at `CRVAL2`, and value `1` at `0`);
* the module-level registry state (`coord_types`, `wcs_configured`, `WCS`,
  the `have_*` flags) mutated by `use()` and by the module-initialization
  probe loop, with library availability as an explicit environment.
-/

/-- Python whitespace for `str.strip()`: space, tab, newline, carriage
return, vertical tab, form feed. -/
def isPySpace (c : Char) : Bool :=
  c = ' ' || c = '\t' || c = '\n' || c = '\r' || c = '\x0b' || c = '\x0c'

/-- Python `s.strip()`: remove leading and trailing whitespace. -/
def pyStrip (s : String) : String :=
  ⟨((s.data.dropWhile isPySpace).reverse.dropWhile isPySpace).reverse⟩

/-- Python `s.upper()` (ASCII range, which is all the source uses). -/
def pyUpper (s : String) : String := ⟨s.data.map Char.toUpper⟩

/-- Python `s.lower()` (ASCII range, which is all the source uses). -/
def pyLower (s : String) : String := ⟨s.data.map Char.toLower⟩

/-- Regex `.*$` without DOTALL: the remainder holds no newline, except possibly
a single trailing one (`$` also matches just before a final newline). -/
def reDotStarEnd (cs : List Char) : Bool :=
  !cs.contains '\n' || (cs.getLast? = some '\n' && !cs.dropLast.contains '\n')

/-- Python `re.match(r'^PRE\-.*$', s)` for the literal prefixes used in the
source (`RA---`, `GLON-`, `ELON-`): anchored prefix match followed by
`.*$`. -/
def reMatchAnchored (pat : String) (s : String) : Bool :=
  pat.data.isPrefixOf s.data && reDotStarEnd (s.data.drop pat.data.length)

/-- A FITS-header value: float, string, or boolean. -/
inductive HVal where
  | str (s : String)
  | num (q : ℚ)
  | bool (b : Bool)
deriving DecidableEq

deriving instance DecidableEq for Except

/-- Header metadata: a mapping from keyword to value.  Python dict lookup
is modelled by the first matching binding. -/
abbrev Header := List (String × HVal)

/-- Lookup `header[key]` as an `Option` (the source catches the `KeyError`s it
cares about explicitly). -/
def Header.lookup : Header → String → Option HVal
  | [], _ => none
  | kv :: rest, k => if kv.1 = k then some kv.2 else Header.lookup rest k

/-- The nested frame-keyword lookup shared by both classifiers:
`RADECSYS` tried first, then `RADESYS`; if neither is present, `FK5` when
an `EQUINOX` keyword exists and `ICRS` otherwise (the two `try/except
KeyError` chains of the source). -/
def frameValue (h : Header) : HVal :=
  match h.lookup "RADECSYS" with
  | some v => v
  | none =>
    match h.lookup "RADESYS" with
    | some v => v
    | none =>
      match h.lookup "EQUINOX" with
      | some _ => HVal.str "FK5"
      | none => HVal.str "ICRS"

/-- Module-level `choose_coord_system(header)`.  A missing `CTYPE1` is the
caught `KeyError` (result `"raw"`); `.strip()` on a non-string value is an
uncaught `AttributeError`, modelled as `.error`.  In the right-ascension
branch the source returns `radecsys.strip().lower()` verbatim. -/
def choose_coord_system (h : Header) : Except String String :=
  match h.lookup "CTYPE1" with
  | none => .ok "raw"
  | some (HVal.num _) => .error "AttributeError"
  | some (HVal.bool _) => .error "AttributeError"
  | some (HVal.str s) =>
    let ctype := pyUpper (pyStrip s)
    if reMatchAnchored "GLON-" ctype then .ok "galactic"
    else if reMatchAnchored "ELON-" ctype then .ok "ecliptic"
    else if reMatchAnchored "RA---" ctype then
      match frameValue h with
      | HVal.str r => .ok (pyLower (pyStrip r))
      | _ => .error "AttributeError"
    else .ok "icrs"

/-- The astlib variant `AstLibWCS.choose_coord_system(self, header)`: no
ecliptic branch; the frame string is normalized with `.strip().upper()`
and mapped to `'b1950'` when it equals `FK4` and to `'j2000'` otherwise;
the fall-through default is `'j2000'`. -/
def AstLibWCS.choose_coord_system (h : Header) : Except String String :=
  match h.lookup "CTYPE1" with
  | none => .ok "raw"
  | some (HVal.num _) => .error "AttributeError"
  | some (HVal.bool _) => .error "AttributeError"
  | some (HVal.str s) =>
    let ctype := pyUpper (pyStrip s)
    if reMatchAnchored "GLON-" ctype then .ok "galactic"
    else if reMatchAnchored "RA---" ctype then
      match frameValue h with
      | HVal.str r =>
        .ok (if pyUpper (pyStrip r) = "FK4" then "b1950" else "j2000")
      | _ => .error "AttributeError"
    else .ok "j2000"

/-! ## The fallback engine `BareBonesWCS`

The transform methods read numeric keywords through `float(...)`; we model
the header restricted to numeric-valued keywords, on which `float()` is
the identity. -/

/-- A header carrying the numeric keywords the fallback engine reads. -/
abbrev NumHeader := List (String × ℚ)

/-- Python `float(self.get_keyword(key))`: dict lookup, `KeyError` when
missing. -/
def BareBonesWCS.get_keyword : NumHeader → String → Except String ℚ
  | [], k => .error ("KeyError: " ++ k)
  | kv :: rest, k =>
    if kv.1 = k then .ok kv.2 else BareBonesWCS.get_keyword rest k

/-- Four sequential keyword reads; the first missing key raises. -/
def BareBonesWCS.get_keyword4 (h : NumHeader) (k1 k2 k3 k4 : String) :
    Except String (ℚ × ℚ × ℚ × ℚ) :=
  match BareBonesWCS.get_keyword h k1 with
  | .error e => .error e
  | .ok a =>
    match BareBonesWCS.get_keyword h k2 with
    | .error e => .error e
    | .ok b =>
      match BareBonesWCS.get_keyword h k3 with
      | .error e => .error e
      | .ok c =>
        match BareBonesWCS.get_keyword h k4 with
        | .error e => .error e
        | .ok d => .ok (a, b, c, d)

/-- Method `get_reference_pixel`: CRPIX1, CRPIX2. -/
def BareBonesWCS.get_reference_pixel (h : NumHeader) : Except String (ℚ × ℚ) :=
  match BareBonesWCS.get_keyword h "CRPIX1" with
  | .error e => .error e
  | .ok x =>
    match BareBonesWCS.get_keyword h "CRPIX2" with
    | .error e => .error e
    | .ok y => .ok (x, y)

/-- Method `get_physical_reference_pixel`: CRVAL1, CRVAL2 with the two range
assertions (`0.0 <= xv < 360.0` and `-90.0 <= yv <= 90.0`); a violated
`assert` raises, modelled as `.error`. -/
def BareBonesWCS.get_physical_reference_pixel (h : NumHeader) :
    Except String (ℚ × ℚ) :=
  match BareBonesWCS.get_keyword h "CRVAL1" with
  | .error e => .error e
  | .ok xv =>
    match BareBonesWCS.get_keyword h "CRVAL2" with
    | .error e => .error e
    | .ok yv =>
      if 0 ≤ xv ∧ xv < 360 then
        if -90 ≤ yv ∧ yv ≤ 90 then .ok (xv, yv)
        else .error "AssertionError: CRVAL2 out of range"
      else .error "AssertionError: CRVAL1 out of range"

/-- Method `get_pixel_coordinates`: the CD matrix, read directly from the CD
keywords; on any failure there (`except Exception`), rebuilt from CDELT
times a PC matrix, trying the `PC1_1` spelling and then (`except
KeyError`) the `PC001001` spelling.  A missing CDELT raises from inside
the handler. -/
def BareBonesWCS.get_pixel_coordinates (h : NumHeader) :
    Except String (ℚ × ℚ × ℚ × ℚ) :=
  match BareBonesWCS.get_keyword4 h "CD1_1" "CD1_2" "CD2_1" "CD2_2" with
  | .ok cds => .ok cds
  | .error _ =>
    match BareBonesWCS.get_keyword h "CDELT1" with
    | .error e => .error e
    | .ok cdelt1 =>
      match BareBonesWCS.get_keyword h "CDELT2" with
      | .error e => .error e
      | .ok cdelt2 =>
        match BareBonesWCS.get_keyword4 h "PC1_1" "PC1_2" "PC2_1" "PC2_2" with
        | .ok (p11, p12, p21, p22) =>
          .ok (p11 * cdelt1, p12 * cdelt1, p21 * cdelt2, p22 * cdelt2)
        | .error _ =>
          match BareBonesWCS.get_keyword4 h
              "PC001001" "PC001002" "PC002001" "PC002002" with
          | .ok (p11, p12, p21, p22) =>
            .ok (p11 * cdelt1, p12 * cdelt1, p21 * cdelt2, p22 * cdelt2)
          | .error e => .error e

/-- Method `BareBonesWCS.pixtoradec(idxs, coords)`: in the `'data'` convention
the pixel is first shifted by +1 per axis, then the tangent-plane affine
forward transform is applied.  `cosdeg` stands for
`math.cos(math.radians(·))`. -/
def BareBonesWCS.pixtoradec (cosdeg : ℚ → ℚ) (h : NumHeader)
    (idxs : ℚ × ℚ) (coords : String) : Except String (ℚ × ℚ) :=
  let xy := if coords = "data" then (idxs.1 + 1, idxs.2 + 1) else idxs
  match BareBonesWCS.get_reference_pixel h with
  | .error e => .error e
  | .ok (crpix1, crpix2) =>
    match BareBonesWCS.get_physical_reference_pixel h with
    | .error e => .error e
    | .ok (crval1, crval2) =>
      match BareBonesWCS.get_pixel_coordinates h with
      | .error e => .error e
      | .ok (cd11, cd12, cd21, cd22) =>
        .ok ((cd11 * (xy.1 - crpix1) + cd12 * (xy.2 - crpix2)) / cosdeg crval2
               + crval1,
             cd21 * (xy.1 - crpix1) + cd22 * (xy.2 - crpix2) + crval2)

/-- Method `BareBonesWCS.radectopix(ra_deg, dec_deg, coords)`: reads the same
header state, rejects a singular CD matrix (`cmp(rmatrix, 0.0)` is `0`
exactly when the determinant is `0.0`, and `not 0` raises the
`WCSError`), wraps RA into the ±180° window around CRVAL1, applies the
inverse transform, and shifts by −1 per axis in the `'data'`
convention. -/
def BareBonesWCS.radectopix (cosdeg : ℚ → ℚ) (h : NumHeader)
    (ra_deg dec_deg : ℚ) (coords : String) : Except String (ℚ × ℚ) :=
  match BareBonesWCS.get_reference_pixel h with
  | .error e => .error e
  | .ok (crpix1, crpix2) =>
    match BareBonesWCS.get_physical_reference_pixel h with
    | .error e => .error e
    | .ok (crval1, crval2) =>
      match BareBonesWCS.get_pixel_coordinates h with
      | .error e => .error e
      | .ok (cd11, cd12, cd21, cd22) =>
        let rmatrix := cd11 * cd22 - cd12 * cd21
        if rmatrix = 0 then .error "WCS Matrix Error: check values"
        else
          let ra1 :=
            if ra_deg - crval1 > 180 then ra_deg - 360
            else if ra_deg - crval1 < -180 then ra_deg + 360
            else ra_deg
          let x := (cd22 * cosdeg crval2 * (ra1 - crval1)
                      - cd12 * (dec_deg - crval2)) / rmatrix + crpix1
          let y := (cd11 * (dec_deg - crval2)
                      - cd21 * cosdeg crval2 * (ra1 - crval1)) / rmatrix + crpix2
          if coords = "data" then .ok (x - 1, y - 1) else .ok (x, y)

/-- Truth exactly on the `.error` constructor. -/
def Except.isErr {ε α : Type} : Except ε α → Bool
  | .error _ => true
  | .ok _ => false

/-! ## The backend registry -/

/-- Which native libraries are importable in the process. -/
structure Avail where
  kapteyn : Bool
  starlink : Bool
  astlib : Bool
  pyfits : Bool
  astropy_io_fits : Bool
  astropy_wcs : Bool
  pywcs : Bool
  astropy_coordinates : Bool
  astropy_units : Bool
deriving DecidableEq

/-- The engine classes a successful `use()` can install as `WCS`. -/
inductive EngineId where
  | kapteyn
  | starlink
  | astlib
  | astropy
  | barebones
deriving DecidableEq

/-- The module-level mutable state touched by `use()` and by module
initialization. -/
structure RegState where
  coord_types : List String
  wcs_configured : Bool
  WCS : Option EngineId
  have_kapteyn : Bool
  have_astlib : Bool
  have_pywcs : Bool
  have_astropy : Bool
  have_starlink : Bool
deriving DecidableEq

/-- The module variables as initialized at load time (before the probe
loop at the bottom of the module runs). -/
def initialState : RegState :=
  { coord_types := []
    wcs_configured := false
    WCS := none
    have_kapteyn := false
    have_astlib := false
    have_pywcs := false
    have_astropy := false
    have_starlink := false }

/-- Outcome of a `use()` call: a returned boolean, or a propagated
`ImportError`. -/
inductive UseResult where
  | ret (b : Bool)
  | exn
deriving DecidableEq

/-- Function `use(wcspkg, raise_err)`: probes one named backend against the
availability environment, mutating the module state on success.  The
`astropy` branch mirrors the source's two-stage import: the first stage
sets `have_pywcs` when `astropy.wcs`+`astropy.io.fits` or standalone
`pywcs` import, raising only in strict mode when both fail, and the
second stage requires `astropy.coordinates` and `astropy.units`.  The
`astlib` branch needs `astropy.io.fits` or standalone `pyfits`.  The
`barebones` branch installs the fallback engine and `['fk5']` but falls
through to the function-level `return False`.  Unknown names fall through
to the same `return False`. -/
def use (av : Avail) (wcspkg : String) (raise_err : Bool) (s : RegState) :
    UseResult × RegState :=
  if wcspkg = "kapteyn" then
    if av.kapteyn then
      (UseResult.ret true,
       { s with coord_types := ["icrs", "fk5", "fk4", "galactic", "ecliptic"]
                have_kapteyn := true
                wcs_configured := true
                WCS := some EngineId.kapteyn })
    else if raise_err then (UseResult.exn, s) else (UseResult.ret false, s)
  else if wcspkg = "starlink" then
    if av.starlink then
      (UseResult.ret true,
       { s with coord_types := ["icrs", "fk5", "fk4", "galactic", "ecliptic"]
                have_starlink := true
                wcs_configured := true
                WCS := some EngineId.starlink })
    else if raise_err then (UseResult.exn, s) else (UseResult.ret false, s)
  else if wcspkg = "astlib" then
    if av.astlib then
      if av.astropy_io_fits || av.pyfits then
        (UseResult.ret true,
         { s with coord_types := ["j2000", "b1950", "galactic"]
                  have_astlib := true
                  wcs_configured := true
                  WCS := some EngineId.astlib })
      else if raise_err then (UseResult.exn, s) else (UseResult.ret false, s)
    else if raise_err then (UseResult.exn, s) else (UseResult.ret false, s)
  else if wcspkg = "astropy" then
    if av.astropy_wcs && av.astropy_io_fits then
      useAstropySecondStage av raise_err { s with have_pywcs := true }
    else if av.pywcs then
      useAstropySecondStage av raise_err { s with have_pywcs := true }
    else if raise_err then (UseResult.exn, s)
    else useAstropySecondStage av raise_err s
  else if wcspkg = "barebones" then
    (UseResult.ret false,
     { s with coord_types := ["fk5"], WCS := some EngineId.barebones })
  else (UseResult.ret false, s)
where
  /-- The second `try` of the astropy branch. -/
  useAstropySecondStage (av : Avail) (raise_err : Bool) (s : RegState) :
      UseResult × RegState :=
    if av.astropy_coordinates && av.astropy_units then
      (UseResult.ret true,
       { s with have_astropy := true
                wcs_configured := true
                coord_types := ["icrs", "fk5", "fk4", "galactic"]
                WCS := some EngineId.astropy })
    else if raise_err then (UseResult.exn, s) else (UseResult.ret false, s)

/-- The probe order hard-coded at the bottom of the module. -/
def probe_order : List String := ["kapteyn", "starlink", "pyast", "astropy"]

/-- The `for name in (...): if use(name, raise_err=False): break` loop.
With `raise_err=False` no call raises; an exception would propagate, so
the `exn` arm stops as well. -/
def probeLoop (av : Avail) : List String → RegState → RegState
  | [], s => s
  | n :: ns, s =>
    match use av n false s with
    | (UseResult.ret true, s1) => s1
    | (UseResult.ret false, s1) => probeLoop av ns s1
    | (UseResult.exn, s1) => s1

/-- Module initialization: `if not wcs_configured: WCS = BareBonesWCS`
followed by the probe loop. -/
def moduleInit (av : Avail) : RegState :=
  if initialState.wcs_configured then initialState
  else probeLoop av probe_order { initialState with WCS := some EngineId.barebones }

/-- A named backend is unavailable when the imports its `use()` branch
requires all fail: the native library for kapteyn/starlink, astLib or
both FITS providers for astlib, and every wcs/coordinate import for
astropy. -/
def backendUnavailable (av : Avail) (wcspkg : String) : Prop :=
  if wcspkg = "kapteyn" then av.kapteyn = false
  else if wcspkg = "starlink" then av.starlink = false
  else if wcspkg = "astlib" then
    av.astlib = false ∨ (av.astropy_io_fits = false ∧ av.pyfits = false)
  else if wcspkg = "astropy" then
    (av.astropy_wcs = false ∨ av.astropy_io_fits = false) ∧ av.pywcs = false ∧
      (av.astropy_coordinates = false ∨ av.astropy_units = false)
  else False

/-! ## Helper lemmas -/

/-- Two patterns of equal length cannot both be prefixes of the same
string. -/
theorem isPrefixOf_eq_false_of_ne {p q l : List Char}
    (hlen : p.length = q.length) (hne : p ≠ q)
    (hp : p.isPrefixOf l = true) : q.isPrefixOf l = false := by
  cases hq : q.isPrefixOf l
  · rfl
  · rw [List.isPrefixOf_iff_prefix] at hp hq
    exact absurd ((List.prefix_of_prefix_length_le hp hq hlen.le).eq_of_length hlen) hne

/-- A string matching the right-ascension pattern matches neither the
galactic nor the ecliptic longitude pattern. -/
theorem raMatch_excludes (t : String)
    (hra : reMatchAnchored "RA---" t = true) :
    reMatchAnchored "GLON-" t = false ∧ reMatchAnchored "ELON-" t = false := by
  rw [reMatchAnchored, Bool.and_eq_true] at hra
  constructor <;>
    · rw [reMatchAnchored]
      rw [isPrefixOf_eq_false_of_ne (by decide) (by decide) hra.1]
      rfl

/-- A lookup in a header whose values are all strings yields a string. -/
theorem Header.lookup_str {h : Header} {k : String} {v : HVal}
    (hstr : ∀ kv ∈ h, ∃ s, kv.2 = HVal.str s)
    (hv : Header.lookup h k = some v) : ∃ s, v = HVal.str s := by
  induction h with
  | nil => exact absurd hv (by simp [Header.lookup])
  | cons kv rest ih =>
    rw [Header.lookup] at hv
    by_cases hk : kv.1 = k
    · rw [if_pos hk, Option.some_inj] at hv
      obtain ⟨s, hs⟩ := hstr kv (List.mem_cons_self kv rest)
      exact ⟨s, hv ▸ hs⟩
    · rw [if_neg hk] at hv
      exact ih (fun kv' hkv' => hstr kv' (List.mem_cons_of_mem kv hkv')) hv

/-- In a header whose values are all strings, `frameValue` is a string. -/
theorem frameValue_str {h : Header}
    (hstr : ∀ kv ∈ h, ∃ s, kv.2 = HVal.str s) :
    ∃ r, frameValue h = HVal.str r := by
  rw [frameValue]
  cases h1 : Header.lookup h "RADECSYS" with
  | some v => exact Header.lookup_str hstr h1
  | none =>
    cases h2 : Header.lookup h "RADESYS" with
    | some v => exact Header.lookup_str hstr h2
    | none => cases Header.lookup h "EQUINOX" <;> exact ⟨_, rfl⟩

/-! ## C4: frame-keyword classification -/

/-- C4 (counterexample): with `CTYPE1` matching the right-ascension
pattern and frame keyword `RADECSYS = "GAPPT"`, the module-level
classifier returns `"gappt"` — the trimmed lowercased frame string
verbatim — which is neither the 1950-epoch tag nor the modern tag of any
engine vocabulary, so the classifier does not map non-FK4 frames to the
modern frame tag. -/
theorem choose_coord_system_modern_tag_cex :
    choose_coord_system
        [("CTYPE1", HVal.str "RA---TAN"), ("RADECSYS", HVal.str "GAPPT")] =
      Except.ok "gappt" ∧
    ("gappt" : String) ∉ (["fk4", "b1950", "icrs", "fk5", "j2000"] : List String) := by
  decide

/-- C4 (amended): when `CTYPE1` matches the right-ascension pattern and
the frame keyword chain (`RADECSYS`, then `RADESYS`) yields the string
`r`, the astlib variant classifier trims and uppercases `r` and returns
the 1950-epoch tag `'b1950'` when the result equals `FK4` and the modern
tag `'j2000'` otherwise, while the module-level classifier returns the
trimmed lowercased frame string verbatim (hence the 1950-epoch tag
`'fk4'` for FK4 inputs, but no mapping of other frames to a modern
tag). -/
theorem choose_coord_system_frame (h : Header) (s r : String)
    (hct : Header.lookup h "CTYPE1" = some (HVal.str s))
    (hra : reMatchAnchored "RA---" (pyUpper (pyStrip s)) = true)
    (hfr : frameValue h = HVal.str r) :
    AstLibWCS.choose_coord_system h =
      Except.ok (if pyUpper (pyStrip r) = "FK4" then "b1950" else "j2000") ∧
    choose_coord_system h = Except.ok (pyLower (pyStrip r)) := by
  obtain ⟨hg, he⟩ := raMatch_excludes _ hra
  constructor
  · simp [AstLibWCS.choose_coord_system, hct, hg, hra, hfr]
  · simp [choose_coord_system, hct, hg, he, hra, hfr]

/-- C4 (witness): the claim's scenario `{CTYPE1: "RA---TAN", RADESYS:
"FK4"}` classifies to the 1950-epoch frame tag in both vocabularies. -/
theorem choose_coord_system_frame_witness :
    AstLibWCS.choose_coord_system
        [("CTYPE1", HVal.str "RA---TAN"), ("RADESYS", HVal.str "FK4")] =
      Except.ok "b1950" ∧
    choose_coord_system
        [("CTYPE1", HVal.str "RA---TAN"), ("RADESYS", HVal.str "FK4")] =
      Except.ok "fk4" := by
  obtain ⟨h1, h2⟩ :=
    choose_coord_system_frame
      [("CTYPE1", HVal.str "RA---TAN"), ("RADESYS", HVal.str "FK4")]
      "RA---TAN" "FK4" (by decide) (by decide) (by decide)
  exact ⟨h1.trans (by decide), h2.trans (by decide)⟩

/-! ## C5: defaulting when no frame keyword is present -/

/-- C5: when `CTYPE1` matches the right-ascension pattern and neither
`RADECSYS` nor `RADESYS` is present, the classifier returns `fk5` when an
`EQUINOX` keyword is present and `icrs` otherwise. -/
theorem choose_coord_system_no_frame (h : Header) (s : String)
    (hct : Header.lookup h "CTYPE1" = some (HVal.str s))
    (hra : reMatchAnchored "RA---" (pyUpper (pyStrip s)) = true)
    (h1 : Header.lookup h "RADECSYS" = none)
    (h2 : Header.lookup h "RADESYS" = none) :
    choose_coord_system h =
      Except.ok (if (Header.lookup h "EQUINOX").isSome then "fk5" else "icrs") := by
  obtain ⟨hg, he⟩ := raMatch_excludes _ hra
  have hfv : frameValue h =
      HVal.str (if (Header.lookup h "EQUINOX").isSome then "FK5" else "ICRS") := by
    rw [frameValue, h1, h2]
    cases Header.lookup h "EQUINOX" <;> simp
  simp only [choose_coord_system, hct, hg, he, hra, hfv]
  cases hq : Header.lookup h "EQUINOX" <;> simp [hq] <;> decide

/-- C5 (witness): `{CTYPE1: "RA---TAN"}` with no frame keyword and no
equinox classifies to `icrs`; adding `EQUINOX` alone yields `fk5`. -/
theorem choose_coord_system_no_frame_witness :
    choose_coord_system [("CTYPE1", HVal.str "RA---TAN")] = Except.ok "icrs" ∧
    choose_coord_system
        [("CTYPE1", HVal.str "RA---TAN"), ("EQUINOX", HVal.num 2000)] =
      Except.ok "fk5" := by
  constructor
  · exact (choose_coord_system_no_frame [("CTYPE1", HVal.str "RA---TAN")]
      "RA---TAN" (by decide) (by decide) (by decide) (by decide)).trans (by decide)
  · exact (choose_coord_system_no_frame
      [("CTYPE1", HVal.str "RA---TAN"), ("EQUINOX", HVal.num 2000)]
      "RA---TAN" (by decide) (by decide) (by decide) (by decide)).trans (by decide)

/-! ## C9: classification totality -/

/-- C9 (counterexample): a metadata mapping whose `CTYPE1` value is the
float `3.0` makes `choose_coord_system` raise (`.strip()` on a float is
an `AttributeError`, and only `KeyError` is caught), so classification is
not exception-free over float/bool-valued metadata. -/
theorem choose_coord_system_raises_cex :
    choose_coord_system [("CTYPE1", HVal.num 3)] = Except.error "AttributeError" := by
  decide

/-- C9 (amended): on every metadata mapping whose values are all strings,
classification terminates normally, returning a tag (worst case `"raw"`)
and never an error; non-string `CTYPE1` or frame-keyword values instead
raise an uncaught `AttributeError`. -/
theorem choose_coord_system_total_str (h : Header)
    (hstr : ∀ kv ∈ h, ∃ s, kv.2 = HVal.str s) :
    ∃ t, choose_coord_system h = Except.ok t := by
  cases hct : Header.lookup h "CTYPE1" with
  | none => exact ⟨"raw", by simp [choose_coord_system, hct]⟩
  | some v =>
    obtain ⟨s, rfl⟩ := Header.lookup_str hstr hct
    obtain ⟨r, hfv⟩ := frameValue_str hstr
    by_cases hg : reMatchAnchored "GLON-" (pyUpper (pyStrip s)) = true
    · exact ⟨"galactic", by simp [choose_coord_system, hct, hg]⟩
    · by_cases he : reMatchAnchored "ELON-" (pyUpper (pyStrip s)) = true
      · exact ⟨"ecliptic", by simp [choose_coord_system, hct, hg, he]⟩
      · by_cases hra : reMatchAnchored "RA---" (pyUpper (pyStrip s)) = true
        · exact ⟨pyLower (pyStrip r),
            by simp [choose_coord_system, hct, hg, he, hra, hfv]⟩
        · exact ⟨"icrs", by simp [choose_coord_system, hct, hg, he, hra]⟩

/-- C9 (witness): a string-valued header with an unrecognized projection
classifies without error. -/
theorem choose_coord_system_total_str_witness :
    ∃ t, choose_coord_system [("CTYPE1", HVal.str "FOO")] = Except.ok t := by
  refine choose_coord_system_total_str [("CTYPE1", HVal.str "FOO")] ?_
  rintro kv hkv
  simp only [List.mem_singleton] at hkv
  exact ⟨"FOO", by rw [hkv]⟩

/-! ## BareBones transform theorems -/

/-- Characterization of `.isErr`. -/
theorem Except.isErr_iff {ε α : Type} (x : Except ε α) :
    Except.isErr x = true ↔ ∃ e, x = Except.error e := by
  cases x <;> simp [Except.isErr]

/-- C2: the forward transform computes exactly the documented affine
formulas (with the +1-per-axis shift applied first in the `'data'`
convention), and on the reference header the reference pixel maps to the
reference sky position exactly. -/
theorem BareBonesWCS.pixtoradec_formula (cosdeg : ℚ → ℚ) (h : NumHeader)
    (x y : ℚ) (coords : String)
    (crpix1 crpix2 crval1 crval2 cd11 cd12 cd21 cd22 : ℚ)
    (hpix : BareBonesWCS.get_reference_pixel h = Except.ok (crpix1, crpix2))
    (hval : BareBonesWCS.get_physical_reference_pixel h = Except.ok (crval1, crval2))
    (hcd : BareBonesWCS.get_pixel_coordinates h = Except.ok (cd11, cd12, cd21, cd22))
    (hcos1 : cosdeg 0 = 1) :
    BareBonesWCS.pixtoradec cosdeg h (x, y) coords =
      Except.ok
        ((cd11 * ((if coords = "data" then x + 1 else x) - crpix1)
            + cd12 * ((if coords = "data" then y + 1 else y) - crpix2)) / cosdeg crval2
           + crval1,
         cd21 * ((if coords = "data" then x + 1 else x) - crpix1)
            + cd22 * ((if coords = "data" then y + 1 else y) - crpix2) + crval2) ∧
    BareBonesWCS.pixtoradec cosdeg
        [("CRPIX1", 50), ("CRPIX2", 50), ("CRVAL1", 180), ("CRVAL2", 0),
         ("CD1_1", -1/1000), ("CD1_2", 0), ("CD2_1", 0), ("CD2_2", 1/1000)]
        (50, 50) "fits" = Except.ok (180, 0) := by
  constructor
  · simp only [BareBonesWCS.pixtoradec, hpix, hval, hcd]
    by_cases hcrd : coords = "data" <;> simp [hcrd]
  · have g1 : BareBonesWCS.get_reference_pixel
        [("CRPIX1", 50), ("CRPIX2", 50), ("CRVAL1", 180), ("CRVAL2", 0),
         ("CD1_1", -1/1000), ("CD1_2", 0), ("CD2_1", 0), ("CD2_2", 1/1000)] =
        Except.ok (50, 50) := by
      simp [BareBonesWCS.get_reference_pixel, BareBonesWCS.get_keyword]
    have g2 : BareBonesWCS.get_physical_reference_pixel
        [("CRPIX1", 50), ("CRPIX2", 50), ("CRVAL1", 180), ("CRVAL2", 0),
         ("CD1_1", -1/1000), ("CD1_2", 0), ("CD2_1", 0), ("CD2_2", 1/1000)] =
        Except.ok (180, 0) := by
      simp [BareBonesWCS.get_physical_reference_pixel, BareBonesWCS.get_keyword]
      norm_num
    have g3 : BareBonesWCS.get_pixel_coordinates
        [("CRPIX1", 50), ("CRPIX2", 50), ("CRVAL1", 180), ("CRVAL2", 0),
         ("CD1_1", -1/1000), ("CD1_2", 0), ("CD2_1", 0), ("CD2_2", 1/1000)] =
        Except.ok (-1/1000, 0, 0, 1/1000) := by
      simp [BareBonesWCS.get_pixel_coordinates, BareBonesWCS.get_keyword4,
        BareBonesWCS.get_keyword]
    rw [BareBonesWCS.pixtoradec, g1, g2, g3]
    simp [hcos1]

/-- C2 (witness): the formula theorem applied at the reference header. -/
theorem BareBonesWCS.pixtoradec_formula_witness :
    BareBonesWCS.pixtoradec (fun _ => 1)
        [("CRPIX1", 50), ("CRPIX2", 50), ("CRVAL1", 180), ("CRVAL2", 0),
         ("CD1_1", -1/1000), ("CD1_2", 0), ("CD2_1", 0), ("CD2_2", 1/1000)]
        (50, 50) "fits" = Except.ok (180, 0) := by
  refine (BareBonesWCS.pixtoradec_formula (fun _ => 1)
      [("CRPIX1", 50), ("CRPIX2", 50), ("CRVAL1", 180), ("CRVAL2", 0),
       ("CD1_1", -1/1000), ("CD1_2", 0), ("CD2_1", 0), ("CD2_2", 1/1000)]
      50 50 "fits" 50 50 180 0 (-1/1000) 0 0 (1/1000) ?_ ?_ ?_ rfl).2
  · simp [BareBonesWCS.get_reference_pixel, BareBonesWCS.get_keyword]
  · simp [BareBonesWCS.get_physical_reference_pixel, BareBonesWCS.get_keyword]
    norm_num
  · simp [BareBonesWCS.get_pixel_coordinates, BareBonesWCS.get_keyword4,
      BareBonesWCS.get_keyword]

/-- C3: whenever the CD matrix determinant is zero, `radectopix` raises
the `WCSError` for every sky coordinate and convention, and never
returns a computed pixel. -/
theorem BareBonesWCS.radectopix_singular (cosdeg : ℚ → ℚ) (h : NumHeader)
    (crpix1 crpix2 crval1 crval2 cd11 cd12 cd21 cd22 : ℚ)
    (hpix : BareBonesWCS.get_reference_pixel h = Except.ok (crpix1, crpix2))
    (hval : BareBonesWCS.get_physical_reference_pixel h = Except.ok (crval1, crval2))
    (hcd : BareBonesWCS.get_pixel_coordinates h = Except.ok (cd11, cd12, cd21, cd22))
    (hdet : cd11 * cd22 - cd12 * cd21 = 0) :
    ∀ ra dec coords, BareBonesWCS.radectopix cosdeg h ra dec coords =
      Except.error "WCS Matrix Error: check values" := by
  intro ra dec coords
  simp [BareBonesWCS.radectopix, hpix, hval, hcd, hdet]

/-- C3 (witness): a singular CD matrix (`[[1,2],[2,4]]`) makes the
inverse transform error out. -/
theorem BareBonesWCS.radectopix_singular_witness :
    BareBonesWCS.radectopix (fun _ => 1)
        [("CRPIX1", 50), ("CRPIX2", 50), ("CRVAL1", 180), ("CRVAL2", 0),
         ("CD1_1", 1), ("CD1_2", 2), ("CD2_1", 2), ("CD2_2", 4)]
        10 10 "data" = Except.error "WCS Matrix Error: check values" := by
  refine BareBonesWCS.radectopix_singular (fun _ => 1)
      [("CRPIX1", 50), ("CRPIX2", 50), ("CRVAL1", 180), ("CRVAL2", 0),
       ("CD1_1", 1), ("CD1_2", 2), ("CD2_1", 2), ("CD2_2", 4)]
      50 50 180 0 1 2 2 4 ?_ ?_ ?_ (by norm_num) 10 10 "data"
  · simp [BareBonesWCS.get_reference_pixel, BareBonesWCS.get_keyword]
  · simp [BareBonesWCS.get_physical_reference_pixel, BareBonesWCS.get_keyword]
    norm_num
  · simp [BareBonesWCS.get_pixel_coordinates, BareBonesWCS.get_keyword4,
      BareBonesWCS.get_keyword]

/-- C6: reading the reference sky position accepts CRVAL1 in `[0, 360)`
and CRVAL2 in `[-90, 90]` and returns them unchanged; CRVAL1 equal to
`360` or negative, or CRVAL2 outside `[-90, 90]`, is a hard error, and
both transforms error out before producing any result. -/
theorem BareBonesWCS.crval_range (h : NumHeader) (xv yv : ℚ)
    (h1 : BareBonesWCS.get_keyword h "CRVAL1" = Except.ok xv)
    (h2 : BareBonesWCS.get_keyword h "CRVAL2" = Except.ok yv) :
    (0 ≤ xv ∧ xv < 360 ∧ -90 ≤ yv ∧ yv ≤ 90 →
      BareBonesWCS.get_physical_reference_pixel h = Except.ok (xv, yv)) ∧
    (xv = 360 ∨ xv < 0 ∨ yv < -90 ∨ 90 < yv →
      Except.isErr (BareBonesWCS.get_physical_reference_pixel h) = true ∧
      ∀ cosdeg p coords,
        Except.isErr (BareBonesWCS.pixtoradec cosdeg h p coords) = true ∧
        ∀ ra dec,
          Except.isErr (BareBonesWCS.radectopix cosdeg h ra dec coords) = true) := by
  constructor
  · rintro ⟨ha, hb, hc, hd⟩
    simp only [BareBonesWCS.get_physical_reference_pixel, h1, h2]
    rw [if_pos ⟨ha, hb⟩, if_pos ⟨hc, hd⟩]
  · intro hrej
    have hphys : Except.isErr (BareBonesWCS.get_physical_reference_pixel h) = true := by
      simp only [BareBonesWCS.get_physical_reference_pixel, h1, h2]
      rcases hrej with h360 | hneg | hlow | hhigh
      · rw [if_neg (by rw [h360]; norm_num)]; rfl
      · rw [if_neg (fun hx => absurd hx.1 (not_le.mpr hneg))]; rfl
      · by_cases hx : 0 ≤ xv ∧ xv < 360
        · rw [if_pos hx, if_neg (fun hy => absurd hy.1 (not_le.mpr hlow))]; rfl
        · rw [if_neg hx]; rfl
      · by_cases hx : 0 ≤ xv ∧ xv < 360
        · rw [if_pos hx, if_neg (fun hy => absurd hy.2 (not_le.mpr hhigh))]; rfl
        · rw [if_neg hx]; rfl
    obtain ⟨e, he⟩ := (Except.isErr_iff _).1 hphys
    refine ⟨hphys, ?_⟩
    intro cosdeg p coords
    constructor
    · cases hrp : BareBonesWCS.get_reference_pixel h with
      | error e1 => simp [BareBonesWCS.pixtoradec, hrp, Except.isErr]
      | ok v =>
        obtain ⟨a, b⟩ := v
        simp [BareBonesWCS.pixtoradec, hrp, he, Except.isErr]
    · intro ra dec
      cases hrp : BareBonesWCS.get_reference_pixel h with
      | error e1 => simp [BareBonesWCS.radectopix, hrp, Except.isErr]
      | ok v =>
        obtain ⟨a, b⟩ := v
        simp [BareBonesWCS.radectopix, hrp, he, Except.isErr]

/-- C6 (witness): the boundary cases — CRVAL1 of `0` and of
`359.999999` accepted with CRVAL2 of `±90`; CRVAL1 of `360` and of
`-0.000001` rejected; CRVAL2 of `90.000001` rejected. -/
theorem BareBonesWCS.crval_range_witness :
    BareBonesWCS.get_physical_reference_pixel [("CRVAL1", 0), ("CRVAL2", 90)] =
      Except.ok (0, 90) ∧
    BareBonesWCS.get_physical_reference_pixel
        [("CRVAL1", 359999999/1000000), ("CRVAL2", -90)] =
      Except.ok (359999999/1000000, -90) ∧
    Except.isErr (BareBonesWCS.get_physical_reference_pixel
        [("CRVAL1", 360), ("CRVAL2", 0)]) = true ∧
    Except.isErr (BareBonesWCS.get_physical_reference_pixel
        [("CRVAL1", -1/1000000), ("CRVAL2", 0)]) = true ∧
    Except.isErr (BareBonesWCS.get_physical_reference_pixel
        [("CRVAL1", 180), ("CRVAL2", 90000001/1000000)]) = true := by
  refine ⟨?_, ?_, ?_, ?_, ?_⟩
  · exact (BareBonesWCS.crval_range [("CRVAL1", 0), ("CRVAL2", 90)] 0 90
      (by simp [BareBonesWCS.get_keyword]) (by simp [BareBonesWCS.get_keyword])).1
      (by norm_num)
  · exact (BareBonesWCS.crval_range [("CRVAL1", 359999999/1000000), ("CRVAL2", -90)]
      (359999999/1000000) (-90)
      (by simp [BareBonesWCS.get_keyword]) (by simp [BareBonesWCS.get_keyword])).1
      (by norm_num)
  · exact ((BareBonesWCS.crval_range [("CRVAL1", 360), ("CRVAL2", 0)] 360 0
      (by simp [BareBonesWCS.get_keyword]) (by simp [BareBonesWCS.get_keyword])).2
      (Or.inl rfl)).1
  · exact ((BareBonesWCS.crval_range [("CRVAL1", -1/1000000), ("CRVAL2", 0)]
      (-1/1000000) 0
      (by simp [BareBonesWCS.get_keyword]) (by simp [BareBonesWCS.get_keyword])).2
      (Or.inr (Or.inl (by norm_num)))).1
  · exact ((BareBonesWCS.crval_range [("CRVAL1", 180), ("CRVAL2", 90000001/1000000)]
      180 (90000001/1000000)
      (by simp [BareBonesWCS.get_keyword]) (by simp [BareBonesWCS.get_keyword])).2
      (Or.inr (Or.inr (Or.inr (by norm_num))))).1

/-- C1: round-trip — for any header state the fallback engine loads, any
CD matrix with nonzero determinant and nonzero `cos(radians(CRVAL2))`,
and any pixel whose forward image stays in the ±180° RA window around
CRVAL1 (the bound region), `radectopix` applied to the `pixtoradec`
output returns the original pixel exactly, in both conventions (exact
rational arithmetic replaces the floating-point tolerance). -/
theorem BareBonesWCS.roundtrip (cosdeg : ℚ → ℚ) (h : NumHeader)
    (x y ra dec : ℚ) (coords : String)
    (crpix1 crpix2 crval1 crval2 cd11 cd12 cd21 cd22 : ℚ)
    (hpix : BareBonesWCS.get_reference_pixel h = Except.ok (crpix1, crpix2))
    (hval : BareBonesWCS.get_physical_reference_pixel h = Except.ok (crval1, crval2))
    (hcd : BareBonesWCS.get_pixel_coordinates h = Except.ok (cd11, cd12, cd21, cd22))
    (hdet : cd11 * cd22 - cd12 * cd21 ≠ 0)
    (hcos : cosdeg crval2 ≠ 0)
    (hfwd : BareBonesWCS.pixtoradec cosdeg h (x, y) coords = Except.ok (ra, dec))
    (hb1 : ra - crval1 ≤ 180) (hb2 : -180 ≤ ra - crval1) :
    BareBonesWCS.radectopix cosdeg h ra dec coords = Except.ok (x, y) := by
  simp only [BareBonesWCS.pixtoradec, hpix, hval, hcd, Except.ok.injEq,
    Prod.mk.injEq] at hfwd
  obtain ⟨hra, hdec⟩ := hfwd
  subst hra hdec
  simp only [BareBonesWCS.radectopix, hpix, hval, hcd]
  rw [if_neg hdet, if_neg (not_lt.mpr hb1), if_neg (not_lt.mpr hb2)]
  by_cases hcrd : coords = "data" <;>
    simp only [hcrd, if_true, if_false, reduceIte, Except.ok.injEq, Prod.mk.injEq] <;>
    constructor <;> field_simp <;> ring

/-- C1 (witness): a concrete round trip in the `'data'` convention. -/
theorem BareBonesWCS.roundtrip_witness :
    BareBonesWCS.pixtoradec (fun _ => 1)
        [("CRPIX1", 50), ("CRPIX2", 50), ("CRVAL1", 180), ("CRVAL2", 0),
         ("CD1_1", -1/1000), ("CD1_2", 0), ("CD2_1", 0), ("CD2_2", 1/1000)]
        (10, 10) "data" = Except.ok (180 + 39/1000, -39/1000) ∧
    BareBonesWCS.radectopix (fun _ => 1)
        [("CRPIX1", 50), ("CRPIX2", 50), ("CRVAL1", 180), ("CRVAL2", 0),
         ("CD1_1", -1/1000), ("CD1_2", 0), ("CD2_1", 0), ("CD2_2", 1/1000)]
        (180 + 39/1000) (-39/1000) "data" = Except.ok (10, 10) := by
  have g1 : BareBonesWCS.get_reference_pixel
      [("CRPIX1", 50), ("CRPIX2", 50), ("CRVAL1", 180), ("CRVAL2", 0),
       ("CD1_1", -1/1000), ("CD1_2", 0), ("CD2_1", 0), ("CD2_2", 1/1000)] =
      Except.ok (50, 50) := by
    simp [BareBonesWCS.get_reference_pixel, BareBonesWCS.get_keyword]
  have g2 : BareBonesWCS.get_physical_reference_pixel
      [("CRPIX1", 50), ("CRPIX2", 50), ("CRVAL1", 180), ("CRVAL2", 0),
       ("CD1_1", -1/1000), ("CD1_2", 0), ("CD2_1", 0), ("CD2_2", 1/1000)] =
      Except.ok (180, 0) := by
    simp [BareBonesWCS.get_physical_reference_pixel, BareBonesWCS.get_keyword]
    norm_num
  have g3 : BareBonesWCS.get_pixel_coordinates
      [("CRPIX1", 50), ("CRPIX2", 50), ("CRVAL1", 180), ("CRVAL2", 0),
       ("CD1_1", -1/1000), ("CD1_2", 0), ("CD2_1", 0), ("CD2_2", 1/1000)] =
      Except.ok (-1/1000, 0, 0, 1/1000) := by
    simp [BareBonesWCS.get_pixel_coordinates, BareBonesWCS.get_keyword4,
      BareBonesWCS.get_keyword]
  have hfwd : BareBonesWCS.pixtoradec (fun _ => 1)
      [("CRPIX1", 50), ("CRPIX2", 50), ("CRVAL1", 180), ("CRVAL2", 0),
       ("CD1_1", -1/1000), ("CD1_2", 0), ("CD2_1", 0), ("CD2_2", 1/1000)]
      (10, 10) "data" = Except.ok (180 + 39/1000, -39/1000) := by
    rw [BareBonesWCS.pixtoradec, g1, g2, g3]
    simp
    norm_num
  refine ⟨hfwd, ?_⟩
  exact BareBonesWCS.roundtrip (fun _ => 1) _ 10 10 (180 + 39/1000) (-39/1000) "data"
    50 50 180 0 (-1/1000) 0 0 (1/1000) g1 g2 g3 (by norm_num) (by norm_num) hfwd
    (by norm_num) (by norm_num)

/-! ## Registry theorems -/

/-- An availability environment with no importable native library. -/
def avNone : Avail :=
  { kapteyn := false, starlink := false, astlib := false, pyfits := false,
    astropy_io_fits := false, astropy_wcs := false, pywcs := false,
    astropy_coordinates := false, astropy_units := false }

/-- C7 (counterexample): with no native library importable, module
initialization leaves `coord_types` as the empty list — not `['fk5']` —
even though the fallback engine does become the active constructor. -/
theorem moduleInit_coord_types_cex :
    (moduleInit avNone).WCS = some EngineId.barebones ∧
    (moduleInit avNone).coord_types = [] ∧
    (moduleInit avNone).coord_types ≠ ["fk5"] := by
  decide

/-- C7 (amended): when probing finds no available backend (kapteyn and
starlink unimportable, astropy's coordinates/units unimportable; the
probe name `'pyast'` matches no branch and is a no-op), the fallback
engine becomes the active constructor but the recorded supported-system
set stays the initial empty list and the configured flag stays unset;
`['fk5']` is recorded only by an explicit `use('barebones')` call. -/
theorem moduleInit_no_backend (av : Avail)
    (hk : av.kapteyn = false) (hs : av.starlink = false)
    (ha : (av.astropy_coordinates && av.astropy_units) = false) :
    (moduleInit av).WCS = some EngineId.barebones ∧
    (moduleInit av).coord_types = [] ∧
    (moduleInit av).wcs_configured = false ∧
    (use av "barebones" false (moduleInit av)).2.coord_types = ["fk5"] := by
  by_cases h1 : (av.astropy_wcs && av.astropy_io_fits) = true <;>
    by_cases h2 : av.pywcs = true <;>
      simp [moduleInit, probeLoop, probe_order, use, use.useAstropySecondStage,
        initialState, hk, hs, ha, h1, h2]

/-- C7 (witness): the amended statement at the all-unavailable
environment. -/
theorem moduleInit_no_backend_witness :
    (moduleInit avNone).WCS = some EngineId.barebones ∧
    (moduleInit avNone).coord_types = [] ∧
    (moduleInit avNone).wcs_configured = false ∧
    (use avNone "barebones" false (moduleInit avNone)).2.coord_types = ["fk5"] :=
  moduleInit_no_backend avNone (by decide) (by decide) (by decide)

/-- C8: forcing an unavailable backend raises in strict mode (state
untouched) and returns `False` in lenient mode, leaving the active
constructor and the supported-system set unchanged. -/
theorem use_unavailable (av : Avail) (name : String) (s : RegState)
    (hun : backendUnavailable av name) :
    use av name true s = (UseResult.exn, s) ∧
    (use av name false s).1 = UseResult.ret false ∧
    (use av name false s).2.WCS = s.WCS ∧
    (use av name false s).2.coord_types = s.coord_types := by
  by_cases h1 : name = "kapteyn"
  · subst h1
    simp [backendUnavailable] at hun
    simp [use, hun]
  by_cases h2 : name = "starlink"
  · subst h2
    simp [backendUnavailable] at hun
    simp [use, hun]
  by_cases h3 : name = "astlib"
  · subst h3
    simp [backendUnavailable] at hun
    rcases hun with hlib | ⟨hf1, hf2⟩
    · simp [use, hlib]
    · by_cases hlib : av.astlib = true <;> simp [use, hlib, hf1, hf2]
  by_cases h4 : name = "astropy"
  · subst h4
    simp [backendUnavailable] at hun
    obtain ⟨hw, hp, hc⟩ := hun
    rcases hw with hw | hw <;> rcases hc with hc | hc <;>
      simp [use, use.useAstropySecondStage, hw, hp, hc]
  · simp [backendUnavailable, h1, h2, h3, h4] at hun

/-- C8 (witness): forcing `'kapteyn'` with no native library present. -/
theorem use_unavailable_witness :
    use avNone "kapteyn" true initialState = (UseResult.exn, initialState) ∧
    (use avNone "kapteyn" false initialState).1 = UseResult.ret false ∧
    (use avNone "kapteyn" false initialState).2.WCS = initialState.WCS ∧
    (use avNone "kapteyn" false initialState).2.coord_types =
      initialState.coord_types :=
  use_unavailable avNone "kapteyn" initialState (by simp [backendUnavailable, avNone])

/-- C10: from every prior registry state, `use('barebones')` installs the
fallback constructor and `['fk5']` as the supported-system set, yet
returns `False` and does not set `wcs_configured` (the flag keeps its
prior value). -/
theorem use_barebones (av : Avail) (raise_err : Bool) (s : RegState) :
    use av "barebones" raise_err s =
      (UseResult.ret false,
       { s with coord_types := ["fk5"], WCS := some EngineId.barebones }) ∧
    (use av "barebones" raise_err s).2.wcs_configured = s.wcs_configured := by
  constructor <;> simp [use]
